import Mathlib

/-!
# AI Trip Designer — shallow embedding and verification

A shallow embedding of the trip-planning core of the repository
(`src/cache.ts`, `src/providers/{flights,stays,places,weather}.ts`,
`src/mcp.ts`) and proofs about it.

Modelling conventions:
* JS numbers are rationals (`ℚ`); integer counters and indices are `ℕ`/`ℤ`.
* ISO calendar dates (`YYYY-MM-DD` strings in TypeScript) are modelled as
  day numbers (`ℕ`, days since the Unix epoch); `addDays` becomes addition.
  Date-times are `(day, minute-of-day)` pairs.
* External I/O (`fetch`, `response.json()`) is modelled by an explicit
  upstream-outcome parameter per provider.  A thrown network error is an
  outcome constructor; the `try`/`catch` handlers of the source become the
  match arms that consume it.  Every provider is a total function — the
  embedding of the source's catch-all error handling.
* `Date.now()` is an explicit `now : ℕ` parameter (milliseconds).
* The HTML renderers of `src/mcp.ts` are pure presentation and are not
  embedded; the `html` field of the result records is dropped.
* String operations are carried out on the underlying character lists so
  that all definitions evaluate by kernel reduction.
-/

/-! ## String helpers (models of the JS string primitives used) -/

/-- Model of `s.toLowerCase()` (ASCII, as used by the source). -/
def lowerStr (s : String) : String := ⟨s.data.map Char.toLower⟩

/-- Model of `s.toUpperCase()` (ASCII, as used by the source). -/
def upperStr (s : String) : String := ⟨s.data.map Char.toUpper⟩

/-- Model of `s.includes(sub)`: `sub` occurs as a contiguous substring. -/
def includesStr (s sub : String) : Bool := decide (sub.data <:+: s.data)

/-- Model of `s.startsWith(pfx)`. -/
def startsWithStr (s pfx : String) : Bool := pfx.data.isPrefixOf s.data

/-- Model of `s.trim()`. -/
def trimStr (s : String) : String :=
  ⟨((s.data.dropWhile Char.isWhitespace).reverse.dropWhile Char.isWhitespace).reverse⟩

/-- Replace the first occurrence of `pat` in a character list
(model of `String.prototype.replace` with a plain non-global pattern). -/
def replaceFirstChars (pat repl : List Char) : List Char → List Char
  | [] => []
  | c :: rest =>
    if pat.isPrefixOf (c :: rest) then repl ++ (c :: rest).drop pat.length
    else c :: replaceFirstChars pat repl rest

/-- Model of `name.replace(/pat/, repl)` (first occurrence only). -/
def replaceFirstStr (s pat repl : String) : String :=
  ⟨replaceFirstChars pat.data repl.data s.data⟩

/-- Model of `Math.round` (round half towards `+∞`, as for the
non-negative values that reach it here). -/
def jsRound (q : ℚ) : ℤ := ⌊q + 1 / 2⌋

/-- A JS array access `l[i]` with a possibly negative index:
out-of-range and negative indices give `undefined`. -/
def jsIndex (l : List ℚ) (i : ℤ) : Option ℚ :=
  if 0 ≤ i then l.get? i.toNat else none

/-- `if (s)` truthiness of an optional string: `undefined` and `""` are falsy. -/
def truthyStr : Option String → Option String
  | none => none
  | some s => if s = "" then none else some s

/-! ## `src/cache.ts` — the expiring key-value store

`TTLCache` keeps a `Map` from string keys to `{ value, expiresAt }`
records.  The map is modelled as a function store; `Map.prototype.set`
overwrites, `Map.prototype.delete` removes.  `get` takes `Date.now()` as
an explicit `now` argument and returns the (possibly evicting) updated
cache alongside the value. -/

structure CacheRecord (α : Type) where
  value : α
  expiresAt : ℕ
deriving DecidableEq

structure TTLCache (α : Type) where
  defaultTtlMs : ℕ := 1000 * 60 * 60 * 6
  store : String → Option (CacheRecord α)

/-- The cache every server instance shares by default (fresh and empty). -/
def TTLCache.empty (α : Type) : TTLCache α := { store := fun _ => none }

/-- `get<T>(key)`: absent keys and expired records give `undefined`;
an expired record is deleted on the way out. -/
def TTLCache.get {α : Type} (c : TTLCache α) (now : ℕ) (key : String) :
    Option α × TTLCache α :=
  match c.store key with
  | none => (none, c)
  | some record =>
    if record.expiresAt < now then
      (none, { c with store := fun k => if k = key then none else c.store k })
    else
      (some record.value, c)

/-- `set<T>(key, value, options?)` with `ttl = options?.ttlMs ?? defaultTtlMs`. -/
def TTLCache.set {α : Type} (c : TTLCache α) (now : ℕ) (key : String) (value : α)
    (ttlMs : Option ℕ) : TTLCache α :=
  let ttl := ttlMs.getD c.defaultTtlMs
  { c with store := fun k => if k = key then some ⟨value, now + ttl⟩ else c.store k }

/-! ### Claim C2 — cache visibility window -/

/-- The concrete cache used to exhibit the expiry boundary. -/
def boundaryCache : TTLCache ℕ := (TTLCache.empty ℕ).set 0 "k" 42 (some 10)

/-- C2 counterexample: an entry stored at time 0 with TTL 10 has
`expiresAt = 10`; at `now = 10` the claim's window `now < expiresAt` is
already false and the TTL (10 ms) has fully elapsed, yet `get` still
returns the value.  Visibility is `now ≤ expiresAt`, not `now < expiresAt`. -/
theorem cache_visible_at_expiry :
    (boundaryCache.get 10 "k").fst = some 42 ∧ ¬ (10 : ℕ) < 10 :=
  ⟨by decide, by decide⟩

/-- C2 (amended): a `get` after a `set` returns the exact stored value while
`now ≤ expiresAt = setTime + ttl`; a `get` strictly after the expiry time
returns absent and evicts the entry, and any subsequent `get` of that key
still returns absent (no resurrection). -/
theorem cache_ttl_spec (α : Type) (c : TTLCache α) (t0 : ℕ) (key : String)
    (v : α) (ttl : Option ℕ) (now1 now2 : ℕ) :
    (now1 ≤ t0 + ttl.getD c.defaultTtlMs →
      ((c.set t0 key v ttl).get now1 key).fst = some v) ∧
    (t0 + ttl.getD c.defaultTtlMs < now1 →
      ((c.set t0 key v ttl).get now1 key).fst = none ∧
      ((((c.set t0 key v ttl).get now1 key).snd.get now2 key)).fst = none) := by
  have hs : (c.set t0 key v ttl).store key =
      some ⟨v, t0 + ttl.getD c.defaultTtlMs⟩ := by
    simp [TTLCache.set]
  constructor
  · intro h
    simp only [TTLCache.get, hs]
    rw [if_neg (by omega)]
  · intro h
    simp only [TTLCache.get, hs]
    rw [if_pos (by omega)]
    refine ⟨rfl, ?_⟩
    simp [TTLCache.get]

/-- Witness for C2: concrete runs on both sides of the window
(set at 0 with TTL 10: visible at 7, gone — and staying gone — at 11). -/
theorem cache_ttl_spec_witness :
    (boundaryCache.get 7 "k").fst = some 42 ∧
    (boundaryCache.get 11 "k").fst = none ∧
    (((boundaryCache.get 11 "k").snd.get 99 "k")).fst = none := by
  refine ⟨(cache_ttl_spec ℕ (TTLCache.empty ℕ) 0 "k" 42 (some 10) 7 99).1 (by decide),
    ?_, ?_⟩
  · exact ((cache_ttl_spec ℕ (TTLCache.empty ℕ) 0 "k" 42 (some 10) 11 99).2 (by decide)).1
  · exact ((cache_ttl_spec ℕ (TTLCache.empty ℕ) 0 "k" 42 (some 10) 11 99).2 (by decide)).2

/-! ## `src/types.ts` — shared data model -/

inductive StayType
  | budget
  | mid
  | premium
deriving DecidableEq, Fintype

structure StayOption where
  name : String
  type : StayType
  pricePerNightUSD : ℚ
  totalUSD : ℚ
  rating : Option ℚ
  address : Option String
  link : Option String
deriving DecidableEq

structure StaysResult where
  note : Option String
  options : List StayOption
deriving DecidableEq

/-- A date-time as `(day number, minute of day)` (UTC). -/
abbrev DateTimeM := ℕ × ℕ

structure FlightOption where
  carrier : String
  fromCode : String
  toCode : String
  depart : DateTimeM
  arrive : DateTimeM
  priceUSD : ℚ
  link : Option String
deriving DecidableEq

structure FlightsResult where
  note : Option String
  options : List FlightOption
deriving DecidableEq

structure PlaceOption where
  id : String
  name : String
  category : String
  lat : ℚ
  lon : ℚ
  url : Option String
  estMinutes : Option ℕ
deriving DecidableEq

structure PlacesResult where
  note : Option String
  options : List PlaceOption
deriving DecidableEq

structure DestinationInfo where
  name : String
  country : String
  lat : ℚ
  lon : ℚ
deriving DecidableEq

structure WeatherDay where
  date : ℕ
  hiC : ℚ
  loC : ℚ
  precipProb : Option ℚ
deriving DecidableEq

structure WeatherSnapshot where
  daily : List WeatherDay
deriving DecidableEq

structure ItineraryDay where
  day : ℕ
  date : ℕ
  morning : List String
  afternoon : List String
  evening : List String
  mapUrl : Option String
deriving DecidableEq

structure CostEstimate where
  lowUSD : ℤ
  midUSD : ℤ
  highUSD : ℤ
  notes : List String
deriving DecidableEq

structure TripDates where
  start : ℕ
  tripEnd : ℕ
  days : ℕ
deriving DecidableEq

structure ToolMeta where
  generatedAt : ℕ
  providers : List String
  cached : Bool
deriving DecidableEq

structure AmadeusCredentials where
  clientId : String
  clientSecret : String

/-- Optional credential bundles (`ProviderConfig` in `types.ts`);
each inner record is collapsed to the one field the code reads. -/
structure ProviderConfig where
  amadeus : Option AmadeusCredentials := none
  skyscannerApiKey : Option String := none
  bookingRapidApiKey : Option String := none
  openTripMapApiKey : Option String := none

structure FlightSearchParams where
  origin : String
  destination : String
  departDate : ℕ
  returnDate : Option ℕ
  adults : Option ℕ
  cabin : Option String

structure StaySearchParams where
  destination : String
  checkIn : ℕ
  nights : ℕ
  guests : Option ℕ

structure AttractionSearchParams where
  destination : String
  tags : Option (List String)
  limit : Option ℕ

structure WeatherQueryParams where
  lat : ℚ
  lon : ℚ
  startDate : ℕ
  days : ℕ

/-- The per-request provider context: the shared cache (holding the
capability results, see `CacheValue`) plus the append-only provenance set,
modelled as an insertion-ordered duplicate-free list. -/
inductive CacheValue
  | dest (d : DestinationInfo)
  | weather (w : WeatherSnapshot)
  | flights (f : FlightsResult)
  | stays (s : StaysResult)
  | places (p : PlacesResult)

def CacheValue.asDest : CacheValue → Option DestinationInfo
  | .dest d => some d
  | _ => none

def CacheValue.asWeather : CacheValue → Option WeatherSnapshot
  | .weather w => some w
  | _ => none

def CacheValue.asFlights : CacheValue → Option FlightsResult
  | .flights f => some f
  | _ => none

def CacheValue.asStays : CacheValue → Option StaysResult
  | .stays s => some s
  | _ => none

def CacheValue.asPlaces : CacheValue → Option PlacesResult
  | .places p => some p
  | _ => none

structure ProviderContext where
  cache : TTLCache CacheValue
  providersUsed : List String

/-- `Set.prototype.add`: append if not already present. -/
def setAdd (l : List String) (s : String) : List String :=
  if s ∈ l then l else l ++ [s]

def ProviderContext.addTag (ctx : ProviderContext) (tag : String) : ProviderContext :=
  { ctx with providersUsed := setAdd ctx.providersUsed tag }

/-- `addDays(base, offset)` on day numbers. -/
def addDays (base : ℕ) (offset : ℕ) : ℕ := base + offset

/-! ## `src/mcp.ts` — `computeCostEstimate`

The inline `let` bindings of the source are named top-level definitions so
the theorems can speak about the individual components; each mirrors the
corresponding line of the source. -/

/-- `flights?.options?.map(o => o.priceUSD).filter(p => isFinite(p) && p > 0)
.sort((a, b) => a - b)` — all rationals are finite, so the finiteness test
is vacuous in the model. -/
def flightPricesOf (flights : Option FlightsResult) : Option (List ℚ) :=
  flights.map fun f =>
    ((f.options.map FlightOption.priceUSD).filter fun price => 0 < price).insertionSort (· ≤ ·)

/-- `flightPrices?.[0] ?? (originProvided ? 0 : 0)` -/
def flightLowOf (flights : Option FlightsResult) (originProvided : Bool) : ℚ :=
  ((flightPricesOf flights).bind fun prices => jsIndex prices 0).getD
    (if originProvided then 0 else 0)

/-- `flightPrices?.[Math.min(1, (flightPrices?.length ?? 1) - 1)] ?? flightLow` -/
def flightMidOf (flights : Option FlightsResult) (originProvided : Bool) : ℚ :=
  ((flightPricesOf flights).bind fun prices =>
      jsIndex prices (min 1 ((prices.length : ℤ) - 1))).getD
    (flightLowOf flights originProvided)

/-- `flightPrices?.[Math.min(2, (flightPrices?.length ?? 1) - 1)] ?? flightMid` -/
def flightHighOf (flights : Option FlightsResult) (originProvided : Bool) : ℚ :=
  ((flightPricesOf flights).bind fun prices =>
      jsIndex prices (min 2 ((prices.length : ℤ) - 1))).getD
    (flightMidOf flights originProvided)

/-- The `stayLookup` map (`stays.forEach(s => map.set(s.type, s))`):
`Map.prototype.set` overwrites, so the last option of each type wins. -/
def stayLookup (stays : List StayOption) (t : StayType) : Option StayOption :=
  (stays.filter fun s => decide (s.type = t)).getLast?

/-- `stayLookup.get('budget')?.totalUSD ?? 0` -/
def stayBudgetOf (stays : List StayOption) : ℚ :=
  ((stayLookup stays .budget).map StayOption.totalUSD).getD 0

/-- `stayLookup.get('mid')?.totalUSD ?? stayBudget` -/
def stayMidOf (stays : List StayOption) : ℚ :=
  ((stayLookup stays .mid).map StayOption.totalUSD).getD (stayBudgetOf stays)

/-- `stayLookup.get('premium')?.totalUSD ?? stayMid` -/
def stayPremiumOf (stays : List StayOption) : ℚ :=
  ((stayLookup stays .premium).map StayOption.totalUSD).getD (stayMidOf stays)

/-- The advisory-note slots `computeCostEstimate` receives (one per
capability, `CostNotes` in `mcp.ts`). -/
structure CostNotes where
  flights : Option String := none
  stays : Option String := none
  places : Option String := none
  weather : Option String := none

/-- `if (note) costNotes.push(note)` — push the note when truthy. -/
def pushNote (note : Option String) : List String :=
  match truthyStr note with
  | some s => [s]
  | none => []

/-- Model of `formatCurrency` (`Intl.NumberFormat` with
`maximumFractionDigits: 0`); digit-grouping separators are presentational
and omitted. -/
def formatCurrency (value : ℚ) : String :=
  "$" ++ toString (jsRound value)

def dailyActivityNote : String :=
  "Daily activity budgets: $45/75/130 (low/mid/high)."

/-- `computeCostEstimate(days, stays, flights, budget, originProvided, notes)`. -/
def computeCostEstimate (days : ℕ) (stays : List StayOption)
    (flights : Option FlightsResult) (budget : Option ℚ)
    (originProvided : Bool) (notes : CostNotes) : CostEstimate :=
  let flightLow := flightLowOf flights originProvided
  let flightMid := flightMidOf flights originProvided
  let flightHigh := flightHighOf flights originProvided
  let stayBudget := stayBudgetOf stays
  let stayMid := stayMidOf stays
  let stayPremium := stayPremiumOf stays
  let activityLow : ℚ := 45 * days
  let activityMid : ℚ := 75 * days
  let activityHigh : ℚ := 130 * days
  let lowUSD := jsRound (flightLow + stayBudget + activityLow)
  let midUSD := jsRound (flightMid + stayMid + activityMid)
  let highUSD := jsRound (flightHigh + stayPremium + activityHigh)
  let budgetNotes : List String :=
    match budget with
    | some b =>
      if b ≠ 0 then
        ["Target budget: " ++ formatCurrency b ++ ".",
          "Mid-range estimate is " ++ (if (midUSD : ℚ) ≤ b then "within" else "above")
            ++ " budget."]
      else []
    | none => []
  { lowUSD := lowUSD
    midUSD := midUSD
    highUSD := highUSD
    notes := [dailyActivityNote] ++ budgetNotes ++ pushNote notes.flights
      ++ pushNote notes.stays ++ pushNote notes.places ++ pushNote notes.weather }

/-! ### Claims C3 and C4 — flight components and cost monotonicity -/

/-- The flight-low component as claim C3 words it: the 1st cheapest price
of the returned option list (all prices, sorted ascending), 0 with zero
flights.  Stated from the claim for comparison with `flightLowOf`. -/
def claimFlightLow (flights : Option FlightsResult) : ℚ :=
  match flights with
  | none => 0
  | some f => ((f.options.map FlightOption.priceUSD).insertionSort (· ≤ ·)).headD 0

/-- A zero-fare option, as the live Amadeus mapping produces for an offer
whose price field fails to parse (`priceUSD: ... : 0`). -/
def zeroFareOption : FlightOption :=
  { carrier := "Amadeus Partner", fromCode := "AAA", toCode := "BBB"
    depart := (20412, 510), arrive := (20412, 730), priceUSD := 0, link := none }

def paidFareOption : FlightOption :=
  { carrier := "Sample Airlines", fromCode := "AAA", toCode := "BBB"
    depart := (20412, 825), arrive := (20412, 1040), priceUSD := 100, link := none }

def zeroFareFlights : FlightsResult :=
  { note := none, options := [zeroFareOption, paidFareOption] }

/-- C3 counterexample: with option prices `[0, 100]` the 1st cheapest price
of the list is 0, but the estimator filters out non-positive prices and its
low flight component is 100. -/
theorem flight_low_drops_zero_fares :
    flightLowOf (some zeroFareFlights) true = 100 ∧
    claimFlightLow (some zeroFareFlights) = 0 := by
  constructor
  · simp [flightLowOf, flightPricesOf, jsIndex, zeroFareFlights, zeroFareOption,
      paidFareOption, List.insertionSort, List.orderedInsert]
  · simp [claimFlightLow, zeroFareFlights, zeroFareOption, paidFareOption,
      List.insertionSort, List.orderedInsert]

/-- The closed-form reading of the three flight components: with
`ps` the ascending-sorted list of positive prices, low is its head (0 when
there is none), mid is the 2nd entry when it exists and low otherwise, and
high is the 3rd entry when it exists and mid otherwise. -/
theorem flightComponents_closed_form (flights : Option FlightsResult)
    (originProvided : Bool) :
    (flightLowOf flights originProvided =
      match flightPricesOf flights with
      | none => 0
      | some ps => ps.headD 0) ∧
    (flightMidOf flights originProvided =
      match flightPricesOf flights with
      | none => flightLowOf flights originProvided
      | some ps =>
        if 2 ≤ ps.length then ps.getD 1 0
        else flightLowOf flights originProvided) ∧
    (flightHighOf flights originProvided =
      match flightPricesOf flights with
      | none => flightMidOf flights originProvided
      | some ps =>
        if 3 ≤ ps.length then ps.getD 2 0
        else flightMidOf flights originProvided) := by
  cases hf : flights with
  | none =>
    simp [flightLowOf, flightMidOf, flightHighOf, flightPricesOf]
  | some f =>
    have hps : flightPricesOf (some f) =
        some (((f.options.map FlightOption.priceUSD).filter
          fun price => 0 < price).insertionSort (· ≤ ·)) := rfl
    set ps := ((f.options.map FlightOption.priceUSD).filter
      fun price => 0 < price).insertionSort (· ≤ ·) with hpsdef
    rcases hshape : ps with _ | ⟨a, _ | ⟨b, _ | ⟨c, rest⟩⟩⟩
    · simp [flightLowOf, flightMidOf, flightHighOf, hps, hshape, jsIndex]
    · simp [flightLowOf, flightMidOf, flightHighOf, hps, hshape, jsIndex]
    · simp [flightLowOf, flightMidOf, flightHighOf, hps, hshape, jsIndex]
    · have e1 : ((1 : ℤ) ⊓ ((rest.length : ℤ) + 1 + 1)).toNat = 1 := by omega
      have e2 : ((2 : ℤ) ⊓ ((rest.length : ℤ) + 1 + 1)).toNat = 2 := by omega
      simp [flightLowOf, flightMidOf, flightHighOf, hps, hshape, jsIndex, e1, e2]

lemma jsRound_mono {a b : ℚ} (h : a ≤ b) : jsRound a ≤ jsRound b :=
  Int.floor_le_floor (by linarith)

lemma jsRound_strict {a b : ℚ} (h : a + 1 ≤ b) : jsRound a < jsRound b := by
  unfold jsRound
  have h1 : ⌊a + 1 / 2⌋ + 1 = ⌊a + 1 / 2 + 1⌋ := by
    rw [Int.floor_add_one]
  have h2 : ⌊a + 1 / 2 + 1⌋ ≤ ⌊b + 1 / 2⌋ := Int.floor_le_floor (by linarith)
  omega

/-- The three flight components are non-decreasing for every input. -/
lemma flightComponents_mono (flights : Option FlightsResult) (originProvided : Bool) :
    flightLowOf flights originProvided ≤ flightMidOf flights originProvided ∧
    flightMidOf flights originProvided ≤ flightHighOf flights originProvided := by
  cases hf : flights with
  | none =>
    simp [flightLowOf, flightMidOf, flightHighOf, flightPricesOf]
  | some f =>
    have hps : flightPricesOf (some f) =
        some (((f.options.map FlightOption.priceUSD).filter
          fun price => 0 < price).insertionSort (· ≤ ·)) := rfl
    set ps := ((f.options.map FlightOption.priceUSD).filter
      fun price => 0 < price).insertionSort (· ≤ ·) with hpsdef
    have hsorted : ps.Sorted (· ≤ ·) := List.sorted_insertionSort _ _
    rcases hshape : ps with _ | ⟨a, _ | ⟨b, _ | ⟨c, rest⟩⟩⟩
    · simp [flightLowOf, flightMidOf, flightHighOf, hps, hshape, jsIndex]
    · simp [flightLowOf, flightMidOf, flightHighOf, hps, hshape, jsIndex]
    · rw [hshape] at hsorted
      have hab : a ≤ b := (List.sorted_cons.mp hsorted).1 b (by simp)
      simp [flightLowOf, flightMidOf, flightHighOf, hps, hshape, jsIndex, hab]
    · rw [hshape] at hsorted
      have hab : a ≤ b := (List.sorted_cons.mp hsorted).1 b (by simp)
      have hbc : b ≤ c :=
        (List.sorted_cons.mp (List.sorted_cons.mp hsorted).2).1 c (by simp)
      have e1 : ((1 : ℤ) ⊓ ((rest.length : ℤ) + 1 + 1)).toNat = 1 := by omega
      have e2 : ((2 : ℤ) ⊓ ((rest.length : ℤ) + 1 + 1)).toNat = 2 := by omega
      simp [flightLowOf, flightMidOf, flightHighOf, hps, hshape, jsIndex, e1, e2,
        hab, hbc]

/-- C4 counterexample input: a lodging selection whose mid-tier option is
cheaper than its budget-tier option. -/
def invertedStays : List StayOption :=
  [{ name := "Costly Hostel", type := .budget, pricePerNightUSD := 100,
     totalUSD := 100, rating := none, address := none, link := none },
   { name := "Cheap Boutique", type := .mid, pricePerNightUSD := 10,
     totalUSD := 10, rating := none, address := none, link := none }]

/-- C4 counterexample: for one day, no flights and the lodging selection
above, the estimate has `mid = 85 < 145 = low` — `low ≤ mid` fails because
nothing forces the selected lodging totals to respect the tier order. -/
theorem cost_estimate_not_monotone :
    (computeCostEstimate 1 invertedStays none none true {}).midUSD <
      (computeCostEstimate 1 invertedStays none none true {}).lowUSD := by
  show jsRound (flightMidOf none true + stayMidOf invertedStays + 75 * ((1 : ℕ) : ℚ)) <
    jsRound (flightLowOf none true + stayBudgetOf invertedStays + 45 * ((1 : ℕ) : ℚ))
  apply jsRound_strict
  have h1 : stayMidOf invertedStays = 10 := by decide
  have h2 : stayBudgetOf invertedStays = 100 := by decide
  norm_num [flightMidOf, flightLowOf, flightPricesOf, jsIndex, h1, h2]

/-- C4 (amended): `low ≤ mid ≤ high` for every day count, flight result,
budget, note set and lodging selection whose derived tier totals
(with the code's missing-tier fallbacks) are non-decreasing — as holds for
every selection the stays provider produces; for arbitrary tier totals the
inequality can fail. -/
theorem cost_estimate_monotone (days : ℕ) (stays : List StayOption)
    (flights : Option FlightsResult) (budget : Option ℚ) (originProvided : Bool)
    (notes : CostNotes)
    (hb : stayBudgetOf stays ≤ stayMidOf stays)
    (hm : stayMidOf stays ≤ stayPremiumOf stays) :
    (computeCostEstimate days stays flights budget originProvided notes).lowUSD ≤
      (computeCostEstimate days stays flights budget originProvided notes).midUSD ∧
    (computeCostEstimate days stays flights budget originProvided notes).midUSD ≤
      (computeCostEstimate days stays flights budget originProvided notes).highUSD := by
  obtain ⟨hf1, hf2⟩ := flightComponents_mono flights originProvided
  constructor
  · show jsRound (flightLowOf flights originProvided + stayBudgetOf stays
        + 45 * (days : ℚ)) ≤
      jsRound (flightMidOf flights originProvided + stayMidOf stays + 75 * (days : ℚ))
    apply jsRound_mono
    have hact : (45 : ℚ) * days ≤ 75 * days := by
      apply mul_le_mul_of_nonneg_right (by norm_num) (Nat.cast_nonneg days)
    linarith
  · show jsRound (flightMidOf flights originProvided + stayMidOf stays
        + 75 * (days : ℚ)) ≤
      jsRound (flightHighOf flights originProvided + stayPremiumOf stays
        + 130 * (days : ℚ))
    apply jsRound_mono
    have hact : (75 : ℚ) * days ≤ 130 * days := by
      apply mul_le_mul_of_nonneg_right (by norm_num) (Nat.cast_nonneg days)
    linarith

/-- A well-ordered lodging selection used to exercise `cost_estimate_monotone`. -/
def orderedStays : List StayOption :=
  [{ name := "Old Town Guesthouse", type := .budget, pricePerNightUSD := 35,
     totalUSD := 140, rating := none, address := none, link := none },
   { name := "Nimman Boutique Hotel", type := .mid, pricePerNightUSD := 86,
     totalUSD := 344, rating := none, address := none, link := none },
   { name := "Ping River Retreat", type := .premium, pricePerNightUSD := 204,
     totalUSD := 816, rating := none, address := none, link := none }]

/-- Witness for C4 at a concrete, tier-ordered input. -/
theorem cost_estimate_monotone_witness :
    (computeCostEstimate 4 orderedStays none none false {}).lowUSD ≤
      (computeCostEstimate 4 orderedStays none none false {}).midUSD ∧
    (computeCostEstimate 4 orderedStays none none false {}).midUSD ≤
      (computeCostEstimate 4 orderedStays none none false {}).highUSD :=
  cost_estimate_monotone 4 orderedStays none none false {}
    (by decide) (by decide)

/-! ## `src/mcp.ts` — itinerary synthesis (`computeInterestScore`,
`groupPlacesForItinerary`) -/

/-- `computeInterestScore(place, interests)`: base score 1; per interest of
the (deduplicated) set, +2 when it occurs in the lowercased category and
+1.5 when it occurs in the lowercased name. -/
def computeInterestScore (place : PlaceOption) (interests : List String) : ℚ :=
  if interests.isEmpty then 1
  else
    interests.foldl
      (fun score interest =>
        let score :=
          if includesStr (lowerStr place.category) interest then score + 2 else score
        if includesStr (lowerStr place.name) interest then score + 3 / 2 else score)
      1

/-- `new Set(list)` as an insertion-ordered duplicate-free list. -/
def dedupInsertion (l : List String) : List String :=
  l.foldl (fun acc s => if s ∈ acc then acc else acc ++ [s]) []

/-- `new Set((interests ?? []).map(i => i.toLowerCase()))`. -/
def interestSetOf (interests : Option (List String)) : List String :=
  dedupInsertion ((interests.getD []).map lowerStr)

/-- Score and stable-sort the candidates by descending score
(`Array.prototype.sort` is stable; so is insertion sort with the
non-strict comparator used here). -/
def scoredPlaces (places : List PlaceOption) (interests : Option (List String)) :
    List PlaceOption :=
  ((places.map fun place =>
      (place, computeInterestScore place (interestSetOf interests))).insertionSort
    fun a b => b.2 ≤ a.2).map Prod.fst

def morningFiller : String := "Leisurely breakfast and walking tour of the Old City"

def afternoonFiller : String := "Street food crawl & coffee tasting"

def eveningFiller : String := "Night market stroll & live music"

def describeMorning (m : PlaceOption) : String :=
  "Start at " ++ m.name ++ " (" ++ m.category ++ ", ~"
    ++ toString (m.estMinutes.getD 90) ++ " mins)"

def describeAfternoon (a : PlaceOption) : String :=
  "Afternoon at " ++ a.name ++ " (" ++ a.category ++ ", ~"
    ++ toString (a.estMinutes.getD 90) ++ " mins)"

def describeEvening (e : PlaceOption) : String :=
  "Evening at " ++ e.name ++ " (" ++ e.category ++ ")"

/-- One loop iteration of `groupPlacesForItinerary`: build the day record
from the three dequeued candidates (or the slot fillers), attach the map
link in morning → afternoon → evening preference, and append the
same-category sunset embellishment to the evening text. -/
def makeDaySlots (dayIndex date : ℕ)
    (morning afternoon evening : Option PlaceOption) : ItineraryDay :=
  let slots : ItineraryDay :=
    { day := dayIndex + 1
      date := date
      morning :=
        match morning with
        | some m => [describeMorning m]
        | none => [morningFiller]
      afternoon :=
        match afternoon with
        | some a => [describeAfternoon a]
        | none => [afternoonFiller]
      evening :=
        match evening with
        | some e => [describeEvening e]
        | none => [eveningFiller]
      mapUrl := (morning.bind PlaceOption.url).orElse fun _ =>
        (afternoon.bind PlaceOption.url).orElse fun _ => evening.bind PlaceOption.url }
  match morning, evening with
  | some m, some e =>
    if m.category = e.category then
      { slots with
        evening :=
          match slots.evening with
          | first :: rest => (first ++ " with a sunset twist") :: rest
          | [] => [] }
    else slots
  | _, _ => slots

/-- The `for (dayIndex ...)` loop: three `queue.shift()`s per day. -/
def groupGo (startDate : ℕ) : ℕ → ℕ → List PlaceOption → List ItineraryDay
  | 0, _, _ => []
  | remaining + 1, dayIndex, queue =>
    makeDaySlots dayIndex (addDays startDate dayIndex)
        (queue.get? 0) (queue.get? 1) (queue.get? 2)
      :: groupGo startDate remaining (dayIndex + 1) (queue.drop 3)

/-- `groupPlacesForItinerary(startDate, days, places, interests)`. -/
def groupPlacesForItinerary (startDate days : ℕ) (places : List PlaceOption)
    (interests : Option (List String)) : List ItineraryDay :=
  groupGo startDate days 0 (scoredPlaces places interests)

/-! ### Claim C5 — itinerary synthesis -/

lemma makeDaySlots_date (dayIndex date : ℕ) (m a e : Option PlaceOption) :
    (makeDaySlots dayIndex date m a e).date = date := by
  unfold makeDaySlots
  cases m <;> cases e <;> simp <;> split <;> simp

lemma groupGo_closed_form (startDate : ℕ) :
    ∀ (remaining dayIndex : ℕ) (queue : List PlaceOption),
      groupGo startDate remaining dayIndex queue =
        (List.range remaining).map fun i =>
          makeDaySlots (dayIndex + i) (addDays startDate (dayIndex + i))
            (queue.get? (3 * i)) (queue.get? (3 * i + 1)) (queue.get? (3 * i + 2))
  | 0, _, _ => by simp [groupGo]
  | remaining + 1, dayIndex, queue => by
    rw [groupGo, groupGo_closed_form startDate remaining (dayIndex + 1) (queue.drop 3),
      List.range_succ_eq_map, List.map_cons, List.map_map]
    have htail : ∀ i ∈ List.range remaining,
        makeDaySlots (dayIndex + 1 + i) (addDays startDate (dayIndex + 1 + i))
          ((queue.drop 3).get? (3 * i)) ((queue.drop 3).get? (3 * i + 1))
          ((queue.drop 3).get? (3 * i + 2)) =
        makeDaySlots (dayIndex + (i + 1)) (addDays startDate (dayIndex + (i + 1)))
          (queue.get? (3 * (i + 1))) (queue.get? (3 * (i + 1) + 1))
          (queue.get? (3 * (i + 1) + 2)) := by
      intro i _
      have h0 : dayIndex + 1 + i = dayIndex + (i + 1) := by omega
      have h1 : 3 + 3 * i = 3 * (i + 1) := by omega
      have h2 : 3 + (3 * i + 1) = 3 * (i + 1) + 1 := by omega
      have h3 : 3 + (3 * i + 2) = 3 * (i + 1) + 2 := by omega
      rw [List.get?_drop, List.get?_drop, List.get?_drop, h0, h1, h2, h3]
    rw [List.map_congr_left htail]
    simp [Function.comp]

/-- C5: the synthesis produces exactly `days` entries; entry `i` is dated
`startDate + i` (consecutive calendar dates from the start date); the
whole output is the day-by-day consumption of the score-sorted candidate
queue, three per day in morning/afternoon/evening order (day `i` takes
candidates `3i`, `3i+1`, `3i+2`); and an exhausted slot gets its fixed
slot-specific filler phrase. -/
theorem itinerary_synthesis_spec (startDate days : ℕ) (places : List PlaceOption)
    (interests : Option (List String)) :
    (groupPlacesForItinerary startDate days places interests).length = days ∧
    ((groupPlacesForItinerary startDate days places interests).map ItineraryDay.date
      = (List.range days).map fun i => addDays startDate i) ∧
    (groupPlacesForItinerary startDate days places interests =
      (List.range days).map fun dayIndex =>
        makeDaySlots dayIndex (addDays startDate dayIndex)
          ((scoredPlaces places interests).get? (3 * dayIndex))
          ((scoredPlaces places interests).get? (3 * dayIndex + 1))
          ((scoredPlaces places interests).get? (3 * dayIndex + 2))) ∧
    (∀ dayIndex date a e, (makeDaySlots dayIndex date none a e).morning
      = [morningFiller]) ∧
    (∀ dayIndex date m e, (makeDaySlots dayIndex date m none e).afternoon
      = [afternoonFiller]) ∧
    (∀ dayIndex date m a, (makeDaySlots dayIndex date m a none).evening
      = [eveningFiller]) := by
  have hclosed : groupPlacesForItinerary startDate days places interests =
      (List.range days).map fun dayIndex =>
        makeDaySlots dayIndex (addDays startDate dayIndex)
          ((scoredPlaces places interests).get? (3 * dayIndex))
          ((scoredPlaces places interests).get? (3 * dayIndex + 1))
          ((scoredPlaces places interests).get? (3 * dayIndex + 2)) := by
    rw [groupPlacesForItinerary, groupGo_closed_form]
    simp
  refine ⟨?_, ?_, hclosed, ?_, ?_, ?_⟩
  · rw [hclosed]; simp
  · rw [hclosed, List.map_map]
    apply List.map_congr_left
    intro i _
    simp [makeDaySlots_date]
  · intro dayIndex date a e
    unfold makeDaySlots
    cases e <;> simp
  · intro dayIndex date m e
    unfold makeDaySlots
    cases m <;> cases e <;> simp <;> split <;> simp
  · intro dayIndex date m a
    unfold makeDaySlots
    cases m <;> simp

/-! ### Claim C6 — interest scoring -/

/-- The per-keyword score bonus of a candidate: +2 for a category match,
+1.5 for a name match (both case-insensitive substring checks, carried out
on lowercased text against the already-lowercased keyword). -/
def interestBonus (place : PlaceOption) (k : String) : ℚ :=
  (if includesStr (lowerStr place.category) k then 2 else 0)
    + (if includesStr (lowerStr place.name) k then 3 / 2 else 0)

lemma interestBonus_nonneg (place : PlaceOption) (k : String) :
    0 ≤ interestBonus place k := by
  unfold interestBonus
  split <;> split <;> norm_num

lemma score_foldl_eq (place : PlaceOption) :
    ∀ (l : List String) (init : ℚ),
      l.foldl
        (fun score interest =>
          let score :=
            if includesStr (lowerStr place.category) interest then score + 2 else score
          if includesStr (lowerStr place.name) interest then score + 3 / 2 else score)
        init = init + (l.map (interestBonus place)).sum
  | [], init => by simp
  | k :: rest, init => by
    rw [List.foldl_cons, score_foldl_eq place rest, List.map_cons, List.sum_cons]
    show (if includesStr (lowerStr place.name) k
        then (if includesStr (lowerStr place.category) k then init + 2 else init) + 3 / 2
        else (if includesStr (lowerStr place.category) k then init + 2 else init))
      + (rest.map (interestBonus place)).sum
      = init + (interestBonus place k + (rest.map (interestBonus place)).sum)
    unfold interestBonus
    split <;> split <;> ring

lemma computeInterestScore_eq_sum (place : PlaceOption) (interests : List String)
    (h : ¬ interests.isEmpty) :
    computeInterestScore place interests
      = 1 + (interests.map (interestBonus place)).sum := by
  rw [computeInterestScore, if_neg h, score_foldl_eq]

lemma mem_dedupInsertion_aux (s : String) :
    ∀ (l acc : List String),
      (s ∈ l.foldl (fun acc t => if t ∈ acc then acc else acc ++ [t]) acc
        ↔ s ∈ acc ∨ s ∈ l)
  | [], acc => by simp
  | t :: rest, acc => by
    rw [List.foldl_cons]
    by_cases ht : t ∈ acc
    · rw [if_pos ht, mem_dedupInsertion_aux s rest acc]
      constructor
      · rintro (h | h)
        · exact Or.inl h
        · exact Or.inr (List.mem_cons_of_mem t h)
      · rintro (h | h)
        · exact Or.inl h
        · rcases List.mem_cons.mp h with h | h
          · exact Or.inl (h ▸ ht)
          · exact Or.inr h
    · rw [if_neg ht, mem_dedupInsertion_aux s rest (acc ++ [t])]
      simp [or_assoc]

lemma mem_dedupInsertion (l : List String) (s : String) :
    s ∈ dedupInsertion l ↔ s ∈ l := by
  rw [dedupInsertion, mem_dedupInsertion_aux]
  simp

lemma includesStr_self (s : String) : includesStr s s = true := by
  simp [includesStr]

/-- C6: with no interests every candidate scores exactly the base score 1;
with interests, the score is 1 plus the accumulated per-keyword bonuses
(+2 for a case-insensitive category substring match, +1.5 for a name
match, summed over the deduplicated lowercased keywords); hence a
candidate whose category equals an interest keyword (up to case) scores
strictly higher than one with no category or name match at all. -/
theorem interest_score_spec (p : PlaceOption) (raws : List String) :
    computeInterestScore p [] = 1 ∧
    computeInterestScore p (interestSetOf (some raws))
      = 1 + ((interestSetOf (some raws)).map (interestBonus p)).sum ∧
    (∀ q : PlaceOption,
      (∃ w ∈ raws, lowerStr p.category = lowerStr w) →
      (∀ k ∈ interestSetOf (some raws),
        includesStr (lowerStr q.category) k = false
          ∧ includesStr (lowerStr q.name) k = false) →
      computeInterestScore q (interestSetOf (some raws))
        < computeInterestScore p (interestSetOf (some raws))) := by
  refine ⟨by simp [computeInterestScore], ?_, ?_⟩
  · rcases hset : interestSetOf (some raws) with _ | ⟨k, rest⟩
    · simp [computeInterestScore]
    · rw [computeInterestScore_eq_sum]
      simp
  · intro q hmatch hnone
    obtain ⟨w, hw, hpw⟩ := hmatch
    have hk : lowerStr w ∈ interestSetOf (some raws) := by
      rw [interestSetOf, mem_dedupInsertion]
      exact List.mem_map_of_mem lowerStr hw
    have hne : ¬ (interestSetOf (some raws)).isEmpty := by
      cases h : interestSetOf (some raws) with
      | nil => rw [h] at hk; simp at hk
      | cons a l => simp [h]
    have hq : computeInterestScore q (interestSetOf (some raws)) = 1 := by
      rw [computeInterestScore_eq_sum q _ hne]
      have : ((interestSetOf (some raws)).map (interestBonus q)).sum = 0 := by
        apply List.sum_eq_zero
        intro x hx
        obtain ⟨k, hkmem, rfl⟩ := List.mem_map.mp hx
        obtain ⟨h1, h2⟩ := hnone k hkmem
        simp [interestBonus, h1, h2]
      rw [this, add_zero]
    have hp : 1 + 2 ≤ computeInterestScore p (interestSetOf (some raws)) := by
      rw [computeInterestScore_eq_sum p _ hne]
      have hbonus : (2 : ℚ) ≤ interestBonus p (lowerStr w) := by
        unfold interestBonus
        rw [← hpw, includesStr_self, if_pos rfl]
        split <;> norm_num
      have hmem : interestBonus p (lowerStr w)
          ∈ (interestSetOf (some raws)).map (interestBonus p) :=
        List.mem_map_of_mem _ hk
      have hle : interestBonus p (lowerStr w)
          ≤ ((interestSetOf (some raws)).map (interestBonus p)).sum := by
        apply List.single_le_sum _ _ hmem
        intro x hx
        obtain ⟨k, _, rfl⟩ := List.mem_map.mp hx
        exact interestBonus_nonneg p k
      linarith
    rw [hq]
    linarith

/-- Witness places for C6: a food-category candidate against an unrelated
one, with the single interest keyword "food". -/
def foodTour : PlaceOption :=
  { id := "w-food", name := "Nimman Coffee Crawl", category := "food"
    lat := 0, lon := 0, url := none, estMinutes := some 120 }

def plainSight : PlaceOption :=
  { id := "w-sight", name := "Grand Canyon Water Park", category := "adventure"
    lat := 0, lon := 0, url := none, estMinutes := some 180 }

/-- Witness for C6 at the concrete pair above. -/
theorem interest_score_spec_witness :
    computeInterestScore plainSight (interestSetOf (some ["Food"]))
      < computeInterestScore foodTour (interestSetOf (some ["Food"])) :=
  (interest_score_spec foodTour ["Food"]).2.2 plainSight
    (by decide) (by decide)

/-! ## `src/mcp.ts` — provenance (`providersFromContext`, `formatProviderName`) -/

/-- `formatProviderName`: the fixed display-name table, then the
`cache:` → `cache→` rewrite for anything unknown. -/
def formatProviderName (name : String) : String :=
  if name = "amadeus" then "Amadeus"
  else if name = "opentripmap:mock" then "OpenTripMap (mock)"
  else if name = "opentripmap" then "OpenTripMap"
  else if name = "stays:mock" then "Mock stays"
  else if name = "flights:mock" then "Mock flights"
  else if name = "weather:mock" then "Weather (mock)"
  else if name = "open-meteo" then "Open-Meteo"
  else replaceFirstStr name "cache:" "cache→"

/-- `providersFromContext(context)`: display names of the non-cache tags
(`["mock-data"]` when there are none) and the served-from-cache flag. -/
def providersFromContext (ctx : ProviderContext) (now : ℕ) : ToolMeta :=
  let providers := ctx.providersUsed
  let readableProviders :=
    (providers.filter fun name => ! startsWithStr name "cache:").map formatProviderName
  { generatedAt := now
    providers := if readableProviders.isEmpty then ["mock-data"] else readableProviders
    cached := providers.any fun name => startsWithStr name "cache:" }

/-! ### Claim C7 — provenance reduction -/

/-- C7: the metadata's `cached` flag is true exactly when some accumulated
tag begins with `cache:`; the displayed source list is the display-name
image of the non-cache tags only (so it never draws on a cache-prefixed
tag); and when no non-cache tag exists it is exactly `["mock-data"]`. -/
theorem provenance_reduction (tags : List String) (cache : TTLCache CacheValue)
    (now : ℕ) :
    ((providersFromContext ⟨cache, tags⟩ now).cached = true
      ↔ ∃ t ∈ tags, startsWithStr t "cache:" = true) ∧
    ((tags.filter fun name => ! startsWithStr name "cache:") = [] →
      (providersFromContext ⟨cache, tags⟩ now).providers = ["mock-data"]) ∧
    ((tags.filter fun name => ! startsWithStr name "cache:") ≠ [] →
      (providersFromContext ⟨cache, tags⟩ now).providers
        = (tags.filter fun name => ! startsWithStr name "cache:").map
            formatProviderName) := by
  refine ⟨?_, ?_, ?_⟩
  · simp [providersFromContext, List.any_eq_true]
  · intro h
    simp [providersFromContext, h]
  · intro h
    have : ¬ ((tags.filter fun name => ! startsWithStr name "cache:").map
        formatProviderName).isEmpty := by
      simpa [List.isEmpty_iff] using h
    simp only [providersFromContext, if_neg this]

/-- Witness for C7: a run that consulted the weather cache and the mock
stays tier, and a run that consulted caches only. -/
theorem provenance_reduction_witness :
    ((providersFromContext ⟨TTLCache.empty CacheValue, ["cache:open-meteo", "stays:mock"]⟩ 0).cached
      = true) ∧
    (providersFromContext ⟨TTLCache.empty CacheValue, ["cache:open-meteo", "stays:mock"]⟩ 0).providers
      = ["Mock stays"] ∧
    (providersFromContext ⟨TTLCache.empty CacheValue, ["cache:flights"]⟩ 0).providers
      = ["mock-data"] := by
  refine ⟨?_, ?_, ?_⟩
  · exact (provenance_reduction ["cache:open-meteo", "stays:mock"]
      (TTLCache.empty CacheValue) 0).1.mpr ⟨"cache:open-meteo", by decide, by decide⟩
  · have h := (provenance_reduction ["cache:open-meteo", "stays:mock"]
      (TTLCache.empty CacheValue) 0).2.2 (by decide)
    rw [h]
    decide
  · exact (provenance_reduction ["cache:flights"]
      (TTLCache.empty CacheValue) 0).2.1 (by decide)

/-! ## `src/mcp.ts` — `selectStayTiers` and claim C9 -/

/-- `selectStayTiers(options)`: for each desired tier pick the first option
of that tier, falling back to the first option of the list
(`options.find(() => true)`); push whatever was found. -/
def selectStayTiers (options : List StayOption) : List StayOption :=
  ([StayType.budget, StayType.mid, StayType.premium]).filterMap fun t =>
    (options.find? fun o => decide (o.type = t)).orElse fun _ => options.head?

/-- A premium-only inventory for the C9 counterexample. -/
def premiumOnlyStay : StayOption :=
  { name := "Zen Garden Residence", type := .premium, pricePerNightUSD := 204,
    totalUSD := 816, rating := none, address := none, link := none }

/-- C9 counterexample: with a premium-only option list, the budget and mid
slots fall back to the first option, so the selection holds the premium
tier three times — two (indeed three) selected entries share a tier. -/
theorem stay_tiers_duplicated :
    (selectStayTiers [premiumOnlyStay]).map StayOption.type
      = [StayType.premium, StayType.premium, StayType.premium] ∧
    ¬ (selectStayTiers [premiumOnlyStay]).Pairwise
        (fun a b => a.type ≠ b.type) := by
  refine ⟨by decide, ?_⟩
  intro h
  rw [show selectStayTiers [premiumOnlyStay]
    = [premiumOnlyStay, premiumOnlyStay, premiumOnlyStay] from by decide] at h
  exact (List.pairwise_cons.mp h).1 premiumOnlyStay (by simp) rfl

/-- C9 (amended): whenever the option list holds at least one option of
every tier — as the stays provider's inventory always does — the selection
has exactly one option per tier, in the order budget, mid, premium, so no
two selected entries share a tier. -/
theorem stay_tiers_one_per_tier (options : List StayOption)
    (hall : ∀ t : StayType, ∃ o ∈ options, o.type = t) :
    (selectStayTiers options).map StayOption.type
      = [StayType.budget, StayType.mid, StayType.premium] := by
  have hfind : ∀ t : StayType, ∃ o, (options.find? fun o => decide (o.type = t))
      = some o ∧ o.type = t := by
    intro t
    obtain ⟨o, ho, hot⟩ := hall t
    have : (options.find? fun o => decide (o.type = t)).isSome := by
      rw [List.find?_isSome]
      exact ⟨o, ho, by simp [hot]⟩
    obtain ⟨o', ho'⟩ := Option.isSome_iff_exists.mp this
    refine ⟨o', ho', ?_⟩
    have := List.find?_some ho'
    simpa using this
  obtain ⟨ob, hob, hobt⟩ := hfind .budget
  obtain ⟨om, hom, homt⟩ := hfind .mid
  obtain ⟨op, hop, hopt⟩ := hfind .premium
  simp [selectStayTiers, hob, hom, hop, Option.orElse, hobt, homt, hopt]

/-- Witness stays inventory for C9 covering all three tiers. -/
def threeTierStays : List StayOption :=
  [{ name := "Old Town Guesthouse", type := .budget, pricePerNightUSD := 35,
     totalUSD := 140, rating := none, address := none, link := none },
   { name := "Nimman Boutique Hotel", type := .mid, pricePerNightUSD := 86,
     totalUSD := 344, rating := none, address := none, link := none },
   premiumOnlyStay]

/-- Witness for C9 at the three-tier inventory. -/
theorem stay_tiers_one_per_tier_witness :
    (selectStayTiers threeTierStays).map StayOption.type
      = [StayType.budget, StayType.mid, StayType.premium] :=
  stay_tiers_one_per_tier threeTierStays (by decide)

/-! ## `src/providers/weather.ts` -/

/-- Serialized rational, used in the cache-key serializations below. -/
def ratKey (q : ℚ) : String := toString q.num ++ "/" ++ toString q.den

/-- Stands for `` `weather:${JSON.stringify(params)}` ``: a canonical
serialization of the query fields. -/
def weatherCacheKey (p : WeatherQueryParams) : String :=
  "weather:" ++ ratKey p.lat ++ "," ++ ratKey p.lon ++ ","
    ++ toString p.startDate ++ "," ++ toString p.days

/-- The shape of the Open-Meteo `daily` block (`OpenMeteoResponse`). -/
structure OpenMeteoDaily where
  time : List ℕ
  temperature2mMax : List ℚ
  temperature2mMin : List ℚ
  precipitationProbabilityMax : Option (List ℚ)

/-- What the Open-Meteo call can come back with: a non-success status, a
thrown network/parse error, or a parsed body whose `daily` block may be
missing. -/
inductive WeatherUpstream
  | httpError (status : ℕ)
  | networkThrow
  | payload (daily : Option OpenMeteoDaily)

/-- `Number(x.toFixed(1))` (round to one decimal place). -/
def jsToFixed1 (q : ℚ) : ℚ := (jsRound (q * 10) : ℚ) / 10

/-- `buildMockWeather(params)`: one record per day, dated from the start
date, `hiC = 30 - index`, `loC = hiC - 6`, `precipProb = 20 + index * 5`. -/
def buildMockWeather (params : WeatherQueryParams) : WeatherSnapshot :=
  { daily := (List.range params.days).map fun (index : ℕ) =>
      let baseHi : ℚ := 30 - (index : ℚ)
      { date := params.startDate + index
        hiC := baseHi
        loC := baseHi - 6
        precipProb := some (20 + (index : ℚ) * 5) } }

/-- The live branch runs only when the parsed body has a non-empty
`daily.time` (`if (!daily?.time?.length)` falls back otherwise). -/
def weatherLiveUsable : WeatherUpstream → Bool
  | .payload (some daily) => ! daily.time.isEmpty
  | _ => false

/-- The live mapping of the Open-Meteo arrays.  A missing array element
would be `NaN` in JS, which `ℚ` cannot represent; those lanes surface as 0
and are outside every claim's scope. -/
def openMeteoDays (daily : OpenMeteoDaily) : List WeatherDay :=
  daily.time.enum.map fun (index, time) =>
    { date := time
      hiC := ((daily.temperature2mMax.get? index).map jsToFixed1).getD 0
      loC := ((daily.temperature2mMin.get? index).map jsToFixed1).getD 0
      precipProb := daily.precipitationProbabilityMax.bind fun l => l.get? index }

/-- `weatherProvider(params, context, _config)`: cache, then live, then
the deterministic mock (every upstream failure lands in the mock arm). -/
def weatherProvider (params : WeatherQueryParams) (ctx : ProviderContext)
    (_config : ProviderConfig) (upstream : WeatherUpstream) (now : ℕ) :
    WeatherSnapshot × ProviderContext :=
  let cacheKey := weatherCacheKey params
  let r := ctx.cache.get now cacheKey
  match r.fst.bind CacheValue.asWeather with
  | some cached =>
    (cached, { cache := r.snd, providersUsed := setAdd ctx.providersUsed "cache:open-meteo" })
  | none =>
    match upstream with
    | .payload (some daily) =>
      if daily.time.isEmpty then
        let mock := buildMockWeather params
        (mock, { cache := r.snd.set now cacheKey (.weather mock) none
                 providersUsed := setAdd ctx.providersUsed "weather:mock" })
      else
        let snapshot : WeatherSnapshot := { daily := openMeteoDays daily }
        (snapshot, { cache := r.snd.set now cacheKey (.weather snapshot) none
                     providersUsed := setAdd ctx.providersUsed "open-meteo" })
    | _ =>
      let mock := buildMockWeather params
      (mock, { cache := r.snd.set now cacheKey (.weather mock) none
               providersUsed := setAdd ctx.providersUsed "weather:mock" })

/-! ### Claim C8 — mock weather fallback -/

/-- C8: whenever the live path fails (non-success status, thrown error,
missing or empty payload) on a cache miss, the weather provider returns
exactly the mock snapshot: `days` records, dated consecutively from the
start date, each with `hiC = loC + 6` (so the high strictly exceeds the
low by exactly the 6-degree mock offset). -/
theorem weather_mock_fallback (params : WeatherQueryParams) (ctx : ProviderContext)
    (cfg : ProviderConfig) (upstream : WeatherUpstream) (now : ℕ)
    (hmiss : (ctx.cache.get now (weatherCacheKey params)).fst = none)
    (hfail : weatherLiveUsable upstream = false) :
    (weatherProvider params ctx cfg upstream now).fst = buildMockWeather params ∧
    (buildMockWeather params).daily.length = params.days ∧
    (∀ i, i < params.days →
      ((buildMockWeather params).daily.get? i).map WeatherDay.date
        = some (params.startDate + i)) ∧
    (∀ d ∈ (buildMockWeather params).daily, d.hiC = d.loC + 6 ∧ d.loC < d.hiC) := by
  refine ⟨?_, by simp [buildMockWeather], ?_, ?_⟩
  · rcases upstream with status | _ | daily
    · simp [weatherProvider, hmiss]
    · simp [weatherProvider, hmiss]
    · rcases daily with _ | daily
      · simp [weatherProvider, hmiss]
      · have hempty : daily.time.isEmpty = true := by
          simpa [weatherLiveUsable] using hfail
        simp [weatherProvider, hmiss, hempty]
  · intro i hi
    simp [buildMockWeather, List.get?_map]
    exact List.getElem?_range hi
  · intro d hd
    simp only [buildMockWeather, List.mem_map] at hd
    obtain ⟨i, _, rfl⟩ := hd
    constructor
    · ring
    · simp only []
      linarith

/-- The spec's example weather query (`lat 18.7883, lon 98.9853`,
start 2025-11-20 = day 20412, 3 days). -/
def exampleWeatherQuery : WeatherQueryParams :=
  { lat := mkRat 187883 10000, lon := mkRat 989853 10000
    startDate := 20412, days := 3 }

def freshContext : ProviderContext :=
  { cache := TTLCache.empty CacheValue, providersUsed := [] }

/-- Witness for C8: the example query against a fresh cache and an
upstream 500. -/
theorem weather_mock_fallback_witness :
    (weatherProvider exampleWeatherQuery freshContext {} (.httpError 500) 0).fst
      = buildMockWeather exampleWeatherQuery ∧
    (buildMockWeather exampleWeatherQuery).daily.length = 3 ∧
    ((buildMockWeather exampleWeatherQuery).daily.get? 2).map WeatherDay.date
      = some (20412 + 2) := by
  have h := weather_mock_fallback exampleWeatherQuery freshContext {}
    (.httpError 500) 0 rfl rfl
  exact ⟨h.1, h.2.1, h.2.2.1 2 (by decide)⟩

/-! ## `src/providers/flights.ts` -/

/-- `MOCK_FLIGHTS`: the fixed carrier template (2025-01-10 = day 20098;
08:30 → minute 510, and so on). -/
def mockFlightsTemplate : List FlightOption :=
  [{ carrier := "Mock Air", fromCode := "AAA", toCode := "BBB"
     depart := (20098, 510), arrive := (20098, 730), priceUSD := 425
     link := some "https://example.com/mock-air" },
   { carrier := "Sample Airlines", fromCode := "AAA", toCode := "BBB"
     depart := (20098, 825), arrive := (20098, 1040), priceUSD := 468
     link := some "https://example.com/sample-air" },
   { carrier := "Demo Jet", fromCode := "AAA", toCode := "BBB"
     depart := (20098, 1155), arrive := (20098, 1375), priceUSD := 512
     link := some "https://example.com/demo-jet" }]

structure AmadeusSegment where
  departureIata : Option String
  departureAt : DateTimeM
  arrivalIata : Option String
  arrivalAt : DateTimeM
  marketingCarrierCode : Option String
  carrierCode : Option String

structure AmadeusItinerary where
  segments : List AmadeusSegment

structure AmadeusFlightOffer where
  /-- `Number(offer.price?.total ?? NaN)`: `none` for a missing or
  unparsable total (`NaN`). -/
  priceTotal : Option ℚ
  itineraries : List AmadeusItinerary

/-- What the two-step Amadeus call can come back with: a failed or thrown
token exchange, a failed or thrown offer search, or a parsed body whose
`data` array may be missing. -/
inductive FlightsUpstream
  | tokenHttpError (status : ℕ)
  | tokenThrow
  | searchHttpError (status : ℕ)
  | searchThrow
  | offers (data : Option (List AmadeusFlightOffer))

/-- `mapAmadeusOfferToOption(offer, fallback)`. -/
def mapAmadeusOfferToOption (offer : AmadeusFlightOffer)
    (fallback : FlightSearchParams) : Option FlightOption :=
  match offer.itineraries.head? with
  | none => none
  | some itinerary =>
    match itinerary.segments.head?, itinerary.segments.getLast? with
    | some firstSegment, some lastSegment =>
      some
        { carrier := ((firstSegment.marketingCarrierCode).orElse fun _ =>
            firstSegment.carrierCode).getD "Amadeus Partner"
          fromCode := firstSegment.departureIata.getD fallback.origin
          toCode := lastSegment.arrivalIata.getD fallback.destination
          depart := firstSegment.departureAt
          arrive := lastSegment.arrivalAt
          priceUSD :=
            match offer.priceTotal with
            | some p => (jsRound p : ℚ)
            | none => 0
          link := none }
    | _, _ => none

/-- `fetchAmadeusFlights(params, config)`: `null` (here `none`) for missing
or empty credentials, a failed token exchange, a failed search, a thrown
error, or an offer list that maps to no usable option; otherwise the top
five mapped offers. -/
def fetchAmadeusFlights (params : FlightSearchParams) (config : ProviderConfig)
    (upstream : FlightsUpstream) : Option FlightsResult :=
  match config.amadeus with
  | none => none
  | some credentials =>
    if credentials.clientId = "" ∨ credentials.clientSecret = "" then none
    else
      match upstream with
      | .tokenHttpError _ => none
      | .tokenThrow => none
      | .searchHttpError _ => none
      | .searchThrow => none
      | .offers data =>
        let options := ((data.getD []).take 5).filterMap fun offer =>
          mapAmadeusOfferToOption offer params
        if options.isEmpty then none else some { note := none, options := options }

def mockSchedule : List (ℕ × ℕ) := [(8, 12), (13, 17), (19, 23)]

/-- `buildMockFlights(params)`: the template carriers re-dated to the
requested departure date on the fixed three-departure schedule
(`hh:15` → `hh:45`), suffixed A/B/C, with the requested route. -/
def buildMockFlights (params : FlightSearchParams) : List FlightOption :=
  mockFlightsTemplate.enum.map fun (entry : ℕ × FlightOption) =>
    let index := entry.1
    let flight := entry.2
    let hours := (mockSchedule.get? index).getD (8, 12)
    { flight with
      carrier := flight.carrier ++ " " ++ String.singleton (Char.ofNat (65 + index))
      fromCode := upperStr params.origin
      toCode := upperStr params.destination
      depart := (params.departDate, hours.1 * 60 + 15)
      arrive := (params.departDate, hours.2 * 60 + 45) }

/-- Stands for `` `flights:${JSON.stringify(params)}` ``. -/
def flightsCacheKey (p : FlightSearchParams) : String :=
  "flights:" ++ p.origin ++ "," ++ p.destination ++ "," ++ toString p.departDate
    ++ "," ++ (p.returnDate.map toString).getD "" ++ ","
    ++ (p.adults.map toString).getD "" ++ "," ++ p.cabin.getD ""

def flightsMockNote : String :=
  "Using mock flight data. Add Amadeus credentials to retrieve live fares."

/-- `searchFlightsProvider(params, context, config)`. -/
def searchFlightsProvider (params : FlightSearchParams) (ctx : ProviderContext)
    (config : ProviderConfig) (upstream : FlightsUpstream) (now : ℕ) :
    FlightsResult × ProviderContext :=
  let cacheKey := flightsCacheKey params
  let r := ctx.cache.get now cacheKey
  match r.fst.bind CacheValue.asFlights with
  | some cached =>
    (cached, { cache := r.snd, providersUsed := setAdd ctx.providersUsed "cache:flights" })
  | none =>
    match fetchAmadeusFlights params config upstream with
    | some liveResult =>
      (liveResult,
        { cache := r.snd.set now cacheKey (.flights liveResult) none
          providersUsed := setAdd ctx.providersUsed "amadeus" })
    | none =>
      let mockResult : FlightsResult :=
        { note := some flightsMockNote, options := buildMockFlights params }
      (mockResult,
        { cache := r.snd.set now cacheKey (.flights mockResult) none
          providersUsed := setAdd ctx.providersUsed "flights:mock" })

/-! ## `src/providers/stays.ts` -/

/-- One `MOCK_STAYS` entry (`Omit<StayOption, prices>`). -/
structure MockStayEntry where
  name : String
  type : StayType
  rating : Option ℚ
  address : Option String
  link : Option String

def mockStays : List MockStayEntry :=
  [{ name := "Old Town Guesthouse", type := .budget, rating := some (mkRat 44 10)
     address := some "Soi Moonmuang 8, Chiang Mai"
     link := some "https://example.com/old-town-guesthouse" },
   { name := "Nimman Boutique Hotel", type := .mid, rating := some (mkRat 46 10)
     address := some "Nimmanahaeminda Rd., Chiang Mai"
     link := some "https://example.com/nimman-boutique" },
   { name := "Ping River Retreat", type := .premium, rating := some (mkRat 48 10)
     address := some "Charoenrat Rd., Chiang Mai"
     link := some "https://example.com/ping-river-retreat" },
   { name := "Night Bazaar Lofts", type := .mid, rating := some (mkRat 45 10)
     address := some "Chang Khlan Rd., Chiang Mai"
     link := some "https://example.com/night-bazaar-lofts" },
   { name := "Doi Suthep View Villas", type := .premium, rating := some (mkRat 49 10)
     address := some "Huay Kaew Rd., Chiang Mai"
     link := some "https://example.com/doi-suthep-view" },
   { name := "Backpackers Hub Hostel", type := .budget, rating := some (mkRat 42 10)
     address := some "Tha Phae Gate, Chiang Mai"
     link := some "https://example.com/backpackers-hub" },
   { name := "Riverside Boutique Suites", type := .premium, rating := some (mkRat 47 10)
     address := some "Wat Ket, Chiang Mai"
     link := some "https://example.com/riverside-boutique" },
   { name := "Garden Lane Homestay", type := .budget, rating := some (mkRat 43 10)
     address := some "Santitham, Chiang Mai"
     link := some "https://example.com/garden-lane-homestay" },
   { name := "Craft Hotel Nimman", type := .mid, rating := some (mkRat 46 10)
     address := some "Nimmanahaeminda Soi 11, Chiang Mai"
     link := some "https://example.com/craft-hotel-nimman" },
   { name := "Zen Garden Residence", type := .premium, rating := some (mkRat 49 10)
     address := some "Mae Rim, Chiang Mai"
     link := some "https://example.com/zen-garden-residence" }]

/-- The per-tier base nightly rates of `withPricing`. -/
def stayBasePrice : StayType → ℚ
  | .budget => 35
  | .mid => 82
  | .premium => 185

/-- `withPricing(stays, params)`: nightly rate = base rate scaled by
`1 + index * 0.05` and rounded; total = nightly × nights. -/
def withPricing (stays : List MockStayEntry) (params : StaySearchParams) :
    List StayOption :=
  stays.enum.map fun (entry : ℕ × MockStayEntry) =>
    let index := entry.1
    let stay := entry.2
    let priceAdjust : ℚ := 1 + (index : ℚ) * (5 / 100)
    let nightly : ℚ := (jsRound (stayBasePrice stay.type * priceAdjust) : ℚ)
    { name := stay.name, type := stay.type, pricePerNightUSD := nightly
      totalUSD := nightly * params.nights, rating := stay.rating
      address := stay.address, link := stay.link }

/-- Stands for `` `stays:${JSON.stringify(params)}` ``. -/
def staysCacheKey (p : StaySearchParams) : String :=
  "stays:" ++ p.destination ++ "," ++ toString p.checkIn ++ ","
    ++ toString p.nights ++ "," ++ (p.guests.map toString).getD ""

def staysMockNote : String :=
  "Using curated Chiang Mai stays. Provide a Booking/Amadeus key to enable live inventory."

/-- `searchStaysProvider(params, context, config)`: cache, then always the
mock tier (the Booking.com branch only logs and falls through). -/
def searchStaysProvider (params : StaySearchParams) (ctx : ProviderContext)
    (_config : ProviderConfig) (now : ℕ) : StaysResult × ProviderContext :=
  let cacheKey := staysCacheKey params
  let r := ctx.cache.get now cacheKey
  match r.fst.bind CacheValue.asStays with
  | some cached =>
    (cached, { cache := r.snd, providersUsed := setAdd ctx.providersUsed "cache:stays" })
  | none =>
    let result : StaysResult :=
      { note := some staysMockNote, options := withPricing mockStays params }
    (result,
      { cache := r.snd.set now cacheKey (.stays result) none
        providersUsed := setAdd ctx.providersUsed "stays:mock" })

/-! ## `src/providers/places.ts` -/

structure GeonameResponse where
  name : String
  country : String
  lat : ℚ
  lon : ℚ

/-- Outcome of the geoname lookup. -/
inductive DestUpstream
  | httpError (status : ℕ)
  | networkThrow
  | payload (data : GeonameResponse)

/-- `MOCK_DESTINATION` (Chiang Mai). -/
def mockDestination : DestinationInfo :=
  { name := "Chiang Mai", country := "Thailand"
    lat := mkRat 187883 10000, lon := mkRat 989853 10000 }

/-- One OpenTripMap GeoJSON feature, restricted to the fields the code
reads.  `xid` and `kinds` are optional here because the code guards them
with `?? feature.id` and `?? ''`; `coordinates` is `[lon, lat]`. -/
structure OpenTripMapFeature where
  id : String
  coordinates : ℚ × ℚ
  xid : Option String
  name : String
  kinds : Option String

/-- Outcome of the radius search. -/
inductive PlacesUpstream
  | httpError (status : ℕ)
  | networkThrow
  | payload (features : Option (List OpenTripMapFeature))

def mockPlaces : List PlaceOption :=
  [{ id := "mock-wat-phra-singh", name := "Wat Phra Singh", category := "temple"
     lat := mkRat 18788889 1000000, lon := mkRat 98981944 1000000
     url := some "https://goo.gl/maps/VWnvaQRcWtr", estMinutes := some 90 },
   { id := "mock-wat-chedi-luang", name := "Wat Chedi Luang", category := "temple"
     lat := mkRat 18786944 1000000, lon := mkRat 98985556 1000000
     url := some "https://goo.gl/maps/6L3pCTrGhm12", estMinutes := some 75 },
   { id := "mock-sunday-market", name := "Sunday Walking Street", category := "market"
     lat := mkRat 187883 10000, lon := mkRat 989853 10000
     url := some "https://goo.gl/maps/KTrgU5d5gNv", estMinutes := some 120 },
   { id := "mock-elephant-nature-park", name := "Elephant Nature Park", category := "nature"
     lat := mkRat 189364 10000, lon := mkRat 988576 10000
     url := some "https://goo.gl/maps/1pVxS6c3hHB2", estMinutes := some 240 },
   { id := "mock-doi-suthep", name := "Doi Suthep Temple", category := "temple"
     lat := mkRat 188046 10000, lon := mkRat 989215 10000
     url := some "https://goo.gl/maps/nc7ovjGpq8K2", estMinutes := some 120 },
   { id := "mock-grand-canyon", name := "Grand Canyon Water Park", category := "adventure"
     lat := mkRat 186466 10000, lon := mkRat 989807 10000
     url := some "https://goo.gl/maps/tT9nVWyN7Aq", estMinutes := some 180 },
   { id := "mock-warorot-market", name := "Warorot Market", category := "market"
     lat := mkRat 18791 1000, lon := mkRat 99001 1000
     url := some "https://goo.gl/maps/nsTfxcb5geT2", estMinutes := some 90 },
   { id := "mock-nimman-coffee", name := "Nimman Coffee Crawl", category := "food"
     lat := mkRat 18799 1000, lon := mkRat 98967 1000
     url := some "https://goo.gl/maps/owS1iEZzu1L2", estMinutes := some 120 },
   { id := "mock-night-safari", name := "Chiang Mai Night Safari", category := "wildlife"
     lat := mkRat 187417 10000, lon := mkRat 989236 10000
     url := some "https://goo.gl/maps/tiHXF6Uq7Kt", estMinutes := some 150 },
   { id := "mock-cooking-class", name := "Thai Farm Cooking School", category := "food"
     lat := mkRat 188105 10000, lon := mkRat 990288 10000
     url := some "https://goo.gl/maps/LpLwVB1USwq", estMinutes := some 240 },
   { id := "mock-artisan-village", name := "Bo Sang Umbrella Village", category := "culture"
     lat := mkRat 187727 10000, lon := mkRat 990857 10000
     url := some "https://goo.gl/maps/C2LKveJSu2R2", estMinutes := some 120 },
   { id := "mock-night-market", name := "Chiang Mai Night Bazaar", category := "market"
     lat := mkRat 187837 10000, lon := mkRat 990001 10000
     url := some "https://goo.gl/maps/hSu7dYNEsD52", estMinutes := some 150 }]

/-- `mapKindsToCategory(kinds)`: first matching keyword rule wins. -/
def mapKindsToCategory (kinds : String) : String :=
  if includesStr kinds "temples" then "temple"
  else if includesStr kinds "churches" || includesStr kinds "religion" then "spiritual"
  else if includesStr kinds "foods" || includesStr kinds "restaurants" then "food"
  else if includesStr kinds "natural" then "nature"
  else if includesStr kinds "cultural" then "culture"
  else if includesStr kinds "museums" then "museum"
  else if includesStr kinds "sport" then "adventure"
  else if includesStr kinds "amusements" then "entertainment"
  else if includesStr kinds "shopping" then "shopping"
  else "attraction"

/-- `mapKindsToDuration(kinds)`. -/
def mapKindsToDuration (kinds : String) : ℕ :=
  if includesStr kinds "foods" || includesStr kinds "restaurants" then 90
  else if includesStr kinds "temples" || includesStr kinds "religion" then 120
  else if includesStr kinds "museums" then 120
  else if includesStr kinds "natural" then 180
  else 90

/-- `dest:${city.toLowerCase()}`. -/
def destCacheKey (city : String) : String := "dest:" ++ lowerStr city

/-- `config.openTripMap?.apiKey` is truthy. -/
def placesApiKeyOk (config : ProviderConfig) : Bool :=
  match config.openTripMapApiKey with
  | some k => decide (k ≠ "")
  | none => false

/-- `resolveDestination(city, context, config)`: cache, then geoname
lookup, with the fixed Chiang Mai destination as the mock tier. -/
def resolveDestination (city : String) (ctx : ProviderContext)
    (config : ProviderConfig) (upstream : DestUpstream) (now : ℕ) :
    DestinationInfo × ProviderContext :=
  let cacheKey := destCacheKey city
  let r := ctx.cache.get now cacheKey
  match r.fst.bind CacheValue.asDest with
  | some cached =>
    (cached, { cache := r.snd, providersUsed := setAdd ctx.providersUsed "cache:opentripmap" })
  | none =>
    if placesApiKeyOk config then
      match upstream with
      | .payload data =>
        let destination : DestinationInfo :=
          { name := data.name, country := data.country, lat := data.lat, lon := data.lon }
        (destination,
          { cache := r.snd.set now cacheKey (.dest destination) none
            providersUsed := setAdd ctx.providersUsed "opentripmap" })
      | _ =>
        (mockDestination,
          { cache := r.snd.set now cacheKey (.dest mockDestination) none
            providersUsed := setAdd ctx.providersUsed "opentripmap:mock" })
    else
      (mockDestination,
        { cache := r.snd.set now cacheKey (.dest mockDestination) none
          providersUsed := setAdd ctx.providersUsed "opentripmap:mock" })

/-- The Google-Maps search link built per live feature (URL-escaping of the
query is presentational and omitted). -/
def googleMapsUrl (name : String) (lat lon : ℚ) : String :=
  "https://www.google.com/maps/search/?api=1&query=" ++ name ++ " "
    ++ ratKey lat ++ "," ++ ratKey lon

/-- The live mapping of the radius-search features: keep named features,
classify their kinds, cap at `limit`. -/
def placesLiveOptions (limit : ℕ) (features : List OpenTripMapFeature) :
    List PlaceOption :=
  ((features.filter fun f => decide (f.name ≠ "")).map fun f =>
    let lon := f.coordinates.1
    let lat := f.coordinates.2
    let kinds := f.kinds.getD ""
    { id := f.xid.getD f.id
      name := f.name
      category := mapKindsToCategory kinds
      lat := lat
      lon := lon
      url := some (googleMapsUrl f.name lat lon)
      estMinutes := some (mapKindsToDuration kinds) }).take limit

/-- Stands for `` `places:${JSON.stringify(params)}` ``. -/
def placesCacheKey (p : AttractionSearchParams) : String :=
  "places:" ++ p.destination ++ ","
    ++ String.intercalate ";" (p.tags.getD []) ++ ","
    ++ (p.limit.map toString).getD ""

def placesNoKeyNote : String :=
  "Using curated Chiang Mai attractions. Add an OpenTripMap key for live data."

def placesHttpFailNote : String :=
  "OpenTripMap request failed, using curated Chiang Mai attractions."

def placesEmptyNote : String :=
  "OpenTripMap returned no places, using curated Chiang Mai attractions."

def placesThrowNote : String :=
  "OpenTripMap request errored, using curated Chiang Mai attractions."

/-- `nearbyAttractionsProvider(params, context, config)`: cache, then the
radius search (itself preceded by a destination resolution), then the
curated mock list; every failure path returns the mock slice with a note. -/
def nearbyAttractionsProvider (params : AttractionSearchParams)
    (ctx : ProviderContext) (config : ProviderConfig) (du : DestUpstream)
    (pu : PlacesUpstream) (now : ℕ) : PlacesResult × ProviderContext :=
  let key := placesCacheKey params
  let r := ctx.cache.get now key
  match r.fst.bind CacheValue.asPlaces with
  | some cached =>
    (cached, { cache := r.snd, providersUsed := setAdd ctx.providersUsed "cache:opentripmap" })
  | none =>
    if placesApiKeyOk config then
      let destCtx := resolveDestination params.destination
        { cache := r.snd, providersUsed := ctx.providersUsed } config du now
      let ctx1 := destCtx.snd
      let limit := params.limit.getD 12
      match pu with
      | .httpError _ =>
        let mockResult : PlacesResult :=
          { note := some placesHttpFailNote, options := mockPlaces.take limit }
        (mockResult,
          { cache := ctx1.cache.set now key (.places mockResult) none
            providersUsed := setAdd ctx1.providersUsed "opentripmap:mock" })
      | .networkThrow =>
        let mockResult : PlacesResult :=
          { note := some placesThrowNote, options := mockPlaces.take (params.limit.getD 12) }
        (mockResult,
          { cache := ctx1.cache.set now key (.places mockResult) none
            providersUsed := setAdd ctx1.providersUsed "opentripmap:mock" })
      | .payload features? =>
        let options := placesLiveOptions limit (features?.getD [])
        if options.isEmpty then
          let mockResult : PlacesResult :=
            { note := some placesEmptyNote, options := mockPlaces.take limit }
          (mockResult,
            { cache := ctx1.cache.set now key (.places mockResult) none
              providersUsed := setAdd ctx1.providersUsed "opentripmap:mock" })
        else
          let result : PlacesResult := { note := none, options := options }
          (result,
            { cache := ctx1.cache.set now key (.places result) none
              providersUsed := setAdd ctx1.providersUsed "opentripmap" })
    else
      let mockResult : PlacesResult :=
        { note := some placesNoKeyNote, options := mockPlaces.take (params.limit.getD 12) }
      (mockResult,
        { cache := r.snd.set now key (.places mockResult) none
          providersUsed := setAdd ctx.providersUsed "opentripmap:mock" })

/-! ### Claim C1 — provider fallback never raises -/

lemma mem_setAdd_self (l : List String) (s : String) : s ∈ setAdd l s := by
  unfold setAdd
  split
  · assumption
  · simp

/-- The geoname lookup falls back: no usable key, or a non-success status
or thrown error. -/
def destLiveFails (config : ProviderConfig) (du : DestUpstream) : Bool :=
  ! placesApiKeyOk config ||
    (match du with
     | .payload _ => false
     | _ => true)

/-- The radius search falls back: no usable key, a non-success status, a
thrown error, or a payload mapping to zero usable places. -/
def placesLiveFails (config : ProviderConfig) (limit : ℕ) (pu : PlacesUpstream) : Bool :=
  ! placesApiKeyOk config ||
    (match pu with
     | .httpError _ => true
     | .networkThrow => true
     | .payload features? => (placesLiveOptions limit (features?.getD [])).isEmpty)

/-- C1 (amended): on a cache miss with a failing live path — missing or
empty credentials, non-success status, thrown network error, or an
empty/unusable payload — every capability provider returns (never raises;
each embedded provider is a total function whose failure outcomes all land
in a mock arm) its deterministic mock tier and tags the provenance set
`<capability>:mock`.  The flights, stays and places mock results carry an
advisory note; the weather and destination results carry none, because
`WeatherSnapshot` and `DestinationInfo` have no note field. -/
theorem providers_mock_fallback
    (fp : FlightSearchParams) (sp : StaySearchParams) (pp : AttractionSearchParams)
    (wp : WeatherQueryParams) (city : String) (config : ProviderConfig)
    (fu : FlightsUpstream) (wu : WeatherUpstream) (pu : PlacesUpstream)
    (du pdu : DestUpstream) (ctx : ProviderContext) (now : ℕ)
    (hfmiss : (ctx.cache.get now (flightsCacheKey fp)).fst = none)
    (hwmiss : (ctx.cache.get now (weatherCacheKey wp)).fst = none)
    (hsmiss : (ctx.cache.get now (staysCacheKey sp)).fst = none)
    (hpmiss : (ctx.cache.get now (placesCacheKey pp)).fst = none)
    (hdmiss : (ctx.cache.get now (destCacheKey city)).fst = none)
    (hffail : fetchAmadeusFlights fp config fu = none)
    (hwfail : weatherLiveUsable wu = false)
    (hpfail : placesLiveFails config (pp.limit.getD 12) pu = true)
    (hdfail : destLiveFails config du = true) :
    ((searchFlightsProvider fp ctx config fu now).fst
        = { note := some flightsMockNote, options := buildMockFlights fp } ∧
      "flights:mock" ∈ (searchFlightsProvider fp ctx config fu now).snd.providersUsed) ∧
    ((weatherProvider wp ctx config wu now).fst = buildMockWeather wp ∧
      "weather:mock" ∈ (weatherProvider wp ctx config wu now).snd.providersUsed) ∧
    ((searchStaysProvider sp ctx config now).fst
        = { note := some staysMockNote, options := withPricing mockStays sp } ∧
      "stays:mock" ∈ (searchStaysProvider sp ctx config now).snd.providersUsed) ∧
    ((nearbyAttractionsProvider pp ctx config pdu pu now).fst.note.isSome = true ∧
      (nearbyAttractionsProvider pp ctx config pdu pu now).fst.options
        = mockPlaces.take (pp.limit.getD 12) ∧
      "opentripmap:mock"
        ∈ (nearbyAttractionsProvider pp ctx config pdu pu now).snd.providersUsed) ∧
    ((resolveDestination city ctx config du now).fst = mockDestination ∧
      "opentripmap:mock" ∈ (resolveDestination city ctx config du now).snd.providersUsed) := by
  have hmem : ∀ (l : List String) (s t : String), s ∈ setAdd l t ↔ s ∈ l ∨ s = t := by
    intro l s t
    unfold setAdd
    split
    · rename_i h
      constructor
      · exact Or.inl
      · rintro (h' | rfl)
        · exact h'
        · exact h
    · simp
  refine ⟨⟨?_, ?_⟩, ⟨?_, ?_⟩, ⟨?_, ?_⟩, ⟨?_, ?_, ?_⟩, ⟨?_, ?_⟩⟩
  · simp [searchFlightsProvider, hfmiss, hffail]
  · simp [searchFlightsProvider, hfmiss, hffail, hmem]
  · rcases wu with status | _ | daily
    · simp [weatherProvider, hwmiss]
    · simp [weatherProvider, hwmiss]
    · rcases daily with _ | daily
      · simp [weatherProvider, hwmiss]
      · have hempty : daily.time.isEmpty = true := by
          simpa [weatherLiveUsable] using hwfail
        simp [weatherProvider, hwmiss, hempty]
  · rcases wu with status | _ | daily
    · simp [weatherProvider, hwmiss, hmem]
    · simp [weatherProvider, hwmiss, hmem]
    · rcases daily with _ | daily
      · simp [weatherProvider, hwmiss, hmem]
      · have hempty : daily.time.isEmpty = true := by
          simpa [weatherLiveUsable] using hwfail
        simp [weatherProvider, hwmiss, hempty, hmem]
  · simp [searchStaysProvider, hsmiss]
  · simp [searchStaysProvider, hsmiss, hmem]
  · by_cases hkey : placesApiKeyOk config
    · rcases pu with status | _ | features?
      · simp [nearbyAttractionsProvider, hpmiss, hkey]
      · simp [nearbyAttractionsProvider, hpmiss, hkey]
      · have hempty : (placesLiveOptions (pp.limit.getD 12)
            (features?.getD [])).isEmpty = true := by
          simpa [placesLiveFails, hkey] using hpfail
        simp [nearbyAttractionsProvider, hpmiss, hkey, hempty]
    · simp [nearbyAttractionsProvider, hpmiss, hkey]
  · by_cases hkey : placesApiKeyOk config
    · rcases pu with status | _ | features?
      · simp [nearbyAttractionsProvider, hpmiss, hkey]
      · simp [nearbyAttractionsProvider, hpmiss, hkey]
      · have hempty : (placesLiveOptions (pp.limit.getD 12)
            (features?.getD [])).isEmpty = true := by
          simpa [placesLiveFails, hkey] using hpfail
        simp [nearbyAttractionsProvider, hpmiss, hkey, hempty]
    · simp [nearbyAttractionsProvider, hpmiss, hkey]
  · by_cases hkey : placesApiKeyOk config
    · rcases pu with status | _ | features?
      · simp [nearbyAttractionsProvider, hpmiss, hkey, hmem]
      · simp [nearbyAttractionsProvider, hpmiss, hkey, hmem]
      · have hempty : (placesLiveOptions (pp.limit.getD 12)
            (features?.getD [])).isEmpty = true := by
          simpa [placesLiveFails, hkey] using hpfail
        simp [nearbyAttractionsProvider, hpmiss, hkey, hempty, hmem]
    · simp [nearbyAttractionsProvider, hpmiss, hkey, hmem]
  · by_cases hkey : placesApiKeyOk config
    · rcases du with status | _ | data
      · simp [resolveDestination, hdmiss, hkey]
      · simp [resolveDestination, hdmiss, hkey]
      · simp [destLiveFails, hkey] at hdfail
    · simp [resolveDestination, hdmiss, hkey]
  · by_cases hkey : placesApiKeyOk config
    · rcases du with status | _ | data
      · simp [resolveDestination, hdmiss, hkey, hmem]
      · simp [resolveDestination, hdmiss, hkey, hmem]
      · simp [destLiveFails, hkey] at hdfail
    · simp [resolveDestination, hdmiss, hkey, hmem]

/-- Concrete inputs exercising the all-mock path with no credentials. -/
def emptyConfig : ProviderConfig := {}

def cxFlightSearch : FlightSearchParams :=
  { origin := "BKK", destination := "Chiang Mai", departDate := 20412
    returnDate := none, adults := some 1, cabin := none }

def cxStaySearch : StaySearchParams :=
  { destination := "Chiang Mai", checkIn := 20412, nights := 4, guests := none }

def cxAttractionSearch : AttractionSearchParams :=
  { destination := "Chiang Mai", tags := none, limit := some 12 }

/-- Witness for C1: with no credentials, a fresh cache, and forced upstream
failures, all five providers return their mock tier (with notes on
flights/stays/places) and tag `<capability>:mock`. -/
theorem providers_mock_fallback_witness :
    ((searchFlightsProvider cxFlightSearch freshContext emptyConfig .tokenThrow 0).fst
        = { note := some flightsMockNote, options := buildMockFlights cxFlightSearch } ∧
      "flights:mock" ∈ (searchFlightsProvider cxFlightSearch freshContext emptyConfig
        .tokenThrow 0).snd.providersUsed) ∧
    ((weatherProvider exampleWeatherQuery freshContext emptyConfig .networkThrow 0).fst
        = buildMockWeather exampleWeatherQuery ∧
      "weather:mock" ∈ (weatherProvider exampleWeatherQuery freshContext emptyConfig
        .networkThrow 0).snd.providersUsed) ∧
    ((searchStaysProvider cxStaySearch freshContext emptyConfig 0).fst
        = { note := some staysMockNote, options := withPricing mockStays cxStaySearch } ∧
      "stays:mock" ∈ (searchStaysProvider cxStaySearch freshContext emptyConfig
        0).snd.providersUsed) ∧
    ((nearbyAttractionsProvider cxAttractionSearch freshContext emptyConfig
        .networkThrow (.httpError 502) 0).fst.note.isSome = true ∧
      (nearbyAttractionsProvider cxAttractionSearch freshContext emptyConfig
        .networkThrow (.httpError 502) 0).fst.options
        = mockPlaces.take (cxAttractionSearch.limit.getD 12) ∧
      "opentripmap:mock" ∈ (nearbyAttractionsProvider cxAttractionSearch freshContext
        emptyConfig .networkThrow (.httpError 502) 0).snd.providersUsed) ∧
    ((resolveDestination "Chiang Mai" freshContext emptyConfig .networkThrow 0).fst
        = mockDestination ∧
      "opentripmap:mock" ∈ (resolveDestination "Chiang Mai" freshContext emptyConfig
        .networkThrow 0).snd.providersUsed) :=
  providers_mock_fallback cxFlightSearch cxStaySearch cxAttractionSearch
    exampleWeatherQuery "Chiang Mai" emptyConfig .tokenThrow .networkThrow
    (.httpError 502) .networkThrow .networkThrow freshContext 0
    rfl rfl rfl rfl rfl rfl rfl rfl rfl

/-! ## `src/mcp.ts` — input validation and `TripToolset.planTrip` -/

structure PlanTripInput where
  origin : Option String
  destination : String
  startDate : ℕ
  days : Option ℕ
  budgetUSD : Option ℚ
  interests : Option (List String)

/-- The parsed JSON body of a `planTrip` call, restricted to the field
shapes the validator inspects.  The `YYYY-MM-DD` format and parseability
checks of `validateISODate` guard malformed strings that the day-number
date model cannot represent; a present `startDate` here is a well-formed
date by construction. -/
structure RawPlanTripInput where
  origin : Option String := none
  destination : Option String := none
  startDate : Option ℕ := none
  days : Option ℤ := none
  budgetUSD : Option ℚ := none
  interests : Option (List String) := none

/-- `coerceString`: trimmed non-empty strings only. -/
def coerceStr (v : Option String) : Option String :=
  v.bind fun s =>
    let t := trimStr s
    if t = "" then none else some t

/-- The `days` block of `validatePlanTripInput` (`Number.isInteger` is
built into the `ℤ` model). -/
def validateDays : Option ℤ → Except String ℕ
  | none => .ok 4
  | some numericDays =>
    if numericDays < 1 then .error "`days` must be a positive integer."
    else .ok numericDays.toNat

/-- The `budgetUSD` block (`Number.isFinite` is built into the `ℚ` model). -/
def validateBudget : Option ℚ → Except String (Option ℚ)
  | none => .ok none
  | some numericBudget =>
    if numericBudget < 0 then .error "`budgetUSD` must be a positive number."
    else .ok (some numericBudget)

/-- The `interests` block: trim, lowercase, drop empties, `undefined` when
nothing is left. -/
def resolveInterests : Option (List String) → Option (List String)
  | none => none
  | some l =>
    let filtered := (l.map fun item => lowerStr (trimStr item)).filter
      fun item => decide (item ≠ "")
    if filtered.isEmpty then none else some filtered

/-- `validatePlanTripInput(input)`. -/
def validatePlanTripInput (input : RawPlanTripInput) :
    Except String PlanTripInput :=
  match coerceStr input.destination with
  | none => .error "`destination` is required."
  | some resolvedDestination =>
  match input.startDate with
  | none => .error "`startDate` is required."
  | some resolvedStartDate =>
  match validateDays input.days with
  | .error e => .error e
  | .ok resolvedDays =>
  match validateBudget input.budgetUSD with
  | .error e => .error e
  | .ok resolvedBudget =>
    .ok { origin := coerceStr input.origin
          destination := resolvedDestination
          startDate := resolvedStartDate
          days := some resolvedDays
          budgetUSD := resolvedBudget
          interests := resolveInterests input.interests }

structure PlanTripResult where
  destination : DestinationInfo
  dates : TripDates
  weather : WeatherSnapshot
  flights : Option FlightsResult
  stays : List StayOption
  places : List PlaceOption
  itinerary : List ItineraryDay
  costEstimate : CostEstimate
  meta : ToolMeta

/-- One upstream outcome per external call a `planTrip` run can make
(`placesDest` feeds the destination resolution nested in the places
provider). -/
structure PlanOutcomes where
  dest : DestUpstream
  weather : WeatherUpstream
  flights : FlightsUpstream
  placesDest : DestUpstream
  places : PlacesUpstream

/-- `TripToolset.planTrip(input)`: the full pipeline.  `notes.weather` is
declared in `CostNotes` but never assigned anywhere in the source, so it
is pinned to `none` here. -/
def planTrip (config : ProviderConfig) (cache : TTLCache CacheValue)
    (input : PlanTripInput) (oc : PlanOutcomes) (now : ℕ) :
    PlanTripResult × ProviderContext :=
  let days := input.days.getD 4
  let ctx0 : ProviderContext := { cache := cache, providersUsed := [] }
  let destRes := resolveDestination input.destination ctx0 config oc.dest now
  let destination := destRes.fst
  let ctx1 := destRes.snd
  let tripDates : TripDates :=
    { start := input.startDate
      tripEnd := addDays input.startDate (days - 1)
      days := days }
  let weatherRes := weatherProvider
    { lat := destination.lat, lon := destination.lon
      startDate := input.startDate, days := days } ctx1 config oc.weather now
  let weather := weatherRes.fst
  let ctx2 := weatherRes.snd
  let flightsStep : FlightsResult × ProviderContext × Option String :=
    match input.origin with
    | some origin =>
      let fRes := searchFlightsProvider
        { origin := origin, destination := destination.name
          departDate := input.startDate, returnDate := none
          adults := some 1, cabin := none } ctx2 config oc.flights now
      (fRes.fst, fRes.snd, truthyStr fRes.fst.note)
    | none => ({ note := some "No origin provided.", options := [] }, ctx2, none)
  let flights := flightsStep.1
  let ctx3 := flightsStep.2.1
  let notesFlights := flightsStep.2.2
  let staysRes := searchStaysProvider
    { destination := destination.name, checkIn := input.startDate
      nights := days, guests := none } ctx3 config now
  let staysResult := staysRes.fst
  let ctx4 := staysRes.snd
  let stayOptions := selectStayTiers staysResult.options
  let placesRes := nearbyAttractionsProvider
    { destination := destination.name, tags := input.interests
      limit := some (max 12 (days * 3)) } ctx4 config oc.placesDest oc.places now
  let placesResult := placesRes.fst
  let ctx5 := placesRes.snd
  let notes : CostNotes :=
    { flights := notesFlights
      stays := truthyStr staysResult.note
      places := truthyStr placesResult.note
      weather := none }
  let itinerary := groupPlacesForItinerary input.startDate days
    placesResult.options input.interests
  let costEstimate := computeCostEstimate days stayOptions (some flights)
    input.budgetUSD input.origin.isSome notes
  let meta := providersFromContext ctx5 now
  ({ destination := destination
     dates := tripDates
     weather := weather
     flights := some flights
     stays := stayOptions
     places := placesResult.options
     itinerary := itinerary
     costEstimate := costEstimate
     meta := meta }, ctx5)

/-! ### Claim C10 — the default trip length -/

lemma groupPlacesForItinerary_length (startDate days : ℕ)
    (places : List PlaceOption) (interests : Option (List String)) :
    (groupPlacesForItinerary startDate days places interests).length = days := by
  rw [groupPlacesForItinerary, groupGo_closed_form]
  simp

/-- C10: a validated `planTrip` input that omitted `days` carries the
default `days = 4`, and the produced plan — for every configuration,
cache state and upstream outcome — has exactly 4 itinerary entries and a
date range ending 3 days after the start date. -/
theorem plan_defaults_to_four_days (raw : RawPlanTripInput) (inp : PlanTripInput)
    (config : ProviderConfig) (cache : TTLCache CacheValue) (oc : PlanOutcomes)
    (now : ℕ) (hdays : raw.days = none)
    (hok : validatePlanTripInput raw = .ok inp) :
    inp.days = some 4 ∧
    (planTrip config cache inp oc now).fst.itinerary.length = 4 ∧
    (planTrip config cache inp oc now).fst.dates
      = { start := inp.startDate, tripEnd := inp.startDate + 3, days := 4 } := by
  have hdays4 : inp.days = some 4 := by
    rw [validatePlanTripInput, hdays] at hok
    rcases hd : coerceStr raw.destination with _ | dest
    · rw [hd] at hok
      exact absurd hok (by simp)
    rw [hd] at hok
    rcases hs : raw.startDate with _ | sd
    · rw [hs] at hok
      exact absurd hok (by simp)
    rw [hs] at hok
    simp only [validateDays] at hok
    rcases hb : validateBudget raw.budgetUSD with e | b
    · rw [hb] at hok
      exact absurd hok (by simp)
    rw [hb] at hok
    obtain rfl := Except.ok.inj hok
    rfl
  refine ⟨hdays4, ?_, ?_⟩
  · show (groupPlacesForItinerary inp.startDate (inp.days.getD 4) _ _).length = 4
    rw [groupPlacesForItinerary_length, hdays4]
    rfl
  · show ({ start := inp.startDate
            tripEnd := addDays inp.startDate (inp.days.getD 4 - 1)
            days := inp.days.getD 4 } : TripDates) = _
    rw [hdays4]
    rfl

/-- The spec's end-to-end example request, with `days` omitted. -/
def rawPlanRequest : RawPlanTripInput :=
  { destination := some "Chiang Mai", startDate := some 20412 }

def validatedPlanRequest : PlanTripInput :=
  { origin := none, destination := "Chiang Mai", startDate := 20412
    days := some 4, budgetUSD := none, interests := none }

/-- Every upstream call fails (no credentials are configured anyway). -/
def allMockOutcomes : PlanOutcomes :=
  { dest := .networkThrow, weather := .networkThrow, flights := .tokenThrow
    placesDest := .networkThrow, places := .httpError 502 }

/-- Witness for C10: the Chiang Mai request without `days` plans 4 days,
2025-11-20 (day 20412) through 2025-11-23 (day 20415). -/
theorem plan_defaults_to_four_days_witness :
    validatedPlanRequest.days = some 4 ∧
    (planTrip emptyConfig (TTLCache.empty CacheValue) validatedPlanRequest
      allMockOutcomes 0).fst.itinerary.length = 4 ∧
    (planTrip emptyConfig (TTLCache.empty CacheValue) validatedPlanRequest
      allMockOutcomes 0).fst.dates
      = { start := 20412, tripEnd := 20415, days := 4 } :=
  plan_defaults_to_four_days rawPlanRequest validatedPlanRequest emptyConfig
    (TTLCache.empty CacheValue) allMockOutcomes 0 rfl rfl

/-- C1 counterexample: in the Chiang Mai all-mock run every capability
degrades to its mock tier — the plan's weather snapshot IS the mock
snapshot — yet the collected advisory notes of the cost estimate are only
the fixed activity line plus the stays and places notes.  The weather
capability attaches no advisory note anywhere: `WeatherSnapshot` (like
`DestinationInfo`) has no note field, and the `notes.weather` slot that
`computeCostEstimate` would surface is never assigned in the source.  So
"every capability provider returns a mock-tier result carrying an advisory
note" fails for the weather (and destination) capability. -/
theorem weather_mock_carries_no_note :
    (planTrip emptyConfig (TTLCache.empty CacheValue) validatedPlanRequest
        allMockOutcomes 0).fst.weather
      = buildMockWeather
          { lat := mockDestination.lat, lon := mockDestination.lon
            startDate := 20412, days := 4 } ∧
    (planTrip emptyConfig (TTLCache.empty CacheValue) validatedPlanRequest
        allMockOutcomes 0).fst.costEstimate.notes
      = [dailyActivityNote, staysMockNote, placesNoKeyNote] :=
  ⟨rfl, rfl⟩
